import Mathlib

/-!
Verification of the resource-binding and output-resolution engine of
`ecs_composex` (source file `ecs_composex/compose/x_resources/__init__.py`,
with helpers from `ecs_composex/common/__init__.py`) against its
natural-language specification.

Python values, the `XResource` object state and its methods are shallowly
embedded as Lean definitions.  Machinery that belongs to external
collaborators (JSON-schema validation, the boto3 session, the troposphere
template object graph) is out of scope per the specification and only its
observable effect on the embedded state is modelled.  Each modelling
decision is recorded in the doc comment of the corresponding definition.
-/

namespace ECSX

/-- Embedded Python values, covering the shapes that flow through the
resource definitions and attribute maps of `XResource`. -/
inductive PyVal where
  | pynone : PyVal
  | pybool (b : Bool) : PyVal
  | pyint (n : Int) : PyVal
  | pystr (s : String) : PyVal
  | pylist (xs : List PyVal) : PyVal
  | pydict (kvs : List (String × PyVal)) : PyVal
deriving Repr

/-- Python truthiness for the embedded values: `None`, `False`, `0`, `""`,
`[]` and `{}` are falsy, everything else is truthy. -/
def truthy : PyVal → Bool
  | .pynone => false
  | .pybool b => b
  | .pyint n => n != 0
  | .pystr s => s != ""
  | .pylist xs => !xs.isEmpty
  | .pydict kvs => !kvs.isEmpty

/-- First-match association lookup: the embedding of reading a key of a
Python `dict` (keys are unique in a dict, so first match is the match). -/
def assocFind {α β : Type} [DecidableEq α] (k : α) : List (α × β) → Option β
  | [] => none
  | (k', v) :: rest => if k' = k then some v else assocFind k rest

/-- Python `d[k] = v` on a `dict`: replaces the value at an existing key in
place (keeping the key's position and original key object), appends a new
key at the end. -/
def assocSet {α β : Type} [DecidableEq α] (k : α) (v : β) : List (α × β) → List (α × β)
  | [] => [(k, v)]
  | (k', v') :: rest => if k' = k then (k', v) :: rest else (k', v') :: assocSet k v rest

/-- `compose_x_common.keypresent` (external library dependency): the value
is a dict and the key is present. -/
def keypresent (k : String) : PyVal → Bool
  | .pydict kvs => (assocFind k kvs).isSome
  | _ => false

/-- `compose_x_common.keyisset` (external library dependency): the value is
a dict, the key is present, and the value at the key is truthy. -/
def keyisset (k : String) : PyVal → Bool
  | .pydict kvs =>
    match assocFind k kvs with
    | some v => truthy v
    | none => false
  | _ => false

/-- Reading `d[k]` where the caller has already established the key is
present (`.pynone` out of range; the fallible subscript is `pySubscript`). -/
def pyGet (k : String) : PyVal → PyVal
  | .pydict kvs => (assocFind k kvs).getD .pynone
  | _ => .pynone

/-- `NONALPHANUM.sub("", s)` for `NONALPHANUM = re.compile(r"([^a-zA-Z0-9]+)")`
(`ecs_composex/common/__init__.py`): keep only ASCII letters and digits. -/
def stripNonAlnum (s : String) : String :=
  String.mk (s.data.filter fun c => c.isAlphanum)

/-- `ENV_VAR_NAME.sub("", s)` for `ENV_VAR_NAME = re.compile(r"([^a-zA-Z0-9_]+)")`
(`ecs_composex/compose/x_resources/__init__.py`): keep ASCII letters,
digits and underscores. -/
def stripNonEnvVar (s : String) : String :=
  String.mk (s.data.filter fun c => c.isAlphanum || c = '_')

/-- Python `str.upper()` (ASCII). -/
def pyUpper (s : String) : String :=
  String.mk (s.data.map Char.toUpper)

/-- Python `str.replace("-", "_")`. -/
def pyDashToUnder (s : String) : String :=
  String.mk (s.data.map fun c => if c = '-' then '_' else c)

/-- Truthiness of an optional Python string attribute (`None` and `""` are
falsy). -/
def strOptTruthy : Option String → Bool
  | none => false
  | some s => s != ""

/-- `ecs_composex.common.cfn_params.Parameter`: the attribute-identifier
objects used as keys of the binding registry.  Only the fields read by the
verified code are modelled (`title`, `return_value`, `group_label` and the
CFN `Type`, renamed `ptype` because `Type` is reserved in Lean). -/
structure Parameter where
  title : String
  return_value : Option String
  group_label : Option String
  ptype : String
deriving Repr, DecidableEq

/-- Keys of a raw attribute map: the native/cloud-control description
results are string-keyed, the conformed lookup maps are `Parameter`-keyed;
`XResource.generate_cfn_mappings_from_lookup_properties` type-checks the
keys at runtime, so the embedding keeps both shapes in one type. -/
inductive PropKey where
  | param (p : Parameter)
  | strKey (s : String)
deriving Repr, DecidableEq

/-- A raw or conformed attribute map (a Python dict in the source). -/
abbrev Props := List (PropKey × PyVal)

/-- The Python exceptions raised by the verified code, with their
constructor arguments flattened to strings. -/
inductive PyErr where
  | keyError (args : List String)
  | lookupError (args : List String)
  | typeError (args : List String)
  | valueError (args : List String)
  | attributeError (args : List String)
deriving Repr, DecidableEq

/-- The troposphere intrinsic-function values produced by the binder:
`Ref`, `GetAtt`, `Sub`, `Join`, plain string literals and `FindInMap`. -/
inductive CfnValue where
  | ref (title : String)
  | getAtt (src : String) (attr : PyVal)
  | subst (tpl : PyVal)
  | join (args : List PyVal)
  | lit (s : String)
  | findInMap (mapKey topKey secondKey : String)
deriving Repr

/-- `troposphere.ecs.Environment`: one environment entry `{Name, Value}`. -/
structure Environment where
  Name : String
  Value : CfnValue
deriving Repr

/-- A registered template output: its logical title, its value expression
and the rendered export-name template string. -/
structure OutputRec where
  title : String
  value : CfnValue
  export_name : String
deriving Repr

/-- `output_definition[1]`: either an `AWSObject` subclass instance
(identified by its title) or any other value. -/
inductive SrcObj where
  | aws (title : String)
  | other (v : PyVal)
deriving Repr

/-- `output_definition[2]`: the expression-kind selector — one of the
troposphere classes `Ref` / `GetAtt` / `Sub` / `Join`, a primitive string
or int literal, or anything else. -/
inductive OutKind where
  | kRef
  | kGetAtt
  | kSub
  | kJoin
  | kStr (s : String)
  | kInt (n : Int)
  | kOther
deriving Repr, DecidableEq

/-- A raw new-resource output specification: the 4–5 element tuple
`(name, sourceObject, kind, extra, customSuffix?)`; `suffix = some _`
models the 5-element form. -/
structure OutputDef where
  name : String
  src : SrcObj
  kind : OutKind
  extra : PyVal
  suffix : Option PyVal
deriving Repr

/-- One entry of `attributes_outputs`: the dict
`{Name, Output?, ImportParameter, ImportValue, Original?}` built by
`generate_outputs` (the `Output` and `Original` keys exist only for
new-resource entries). -/
structure AttrOut where
  Name : String
  Output : Option OutputRec
  ImportParameter : Parameter
  ImportValue : CfnValue
  Original : Option Parameter
deriving Repr

/-- The owning stack, as read by `generate_outputs`
(`self.stack.title`, `self.stack.is_void`). -/
structure StackRef where
  title : String
  is_void : Bool
deriving Repr

/-- The `XResource` object state: every field read or written by the
verified methods.  Fields that no verified operation touches
(`requires_vpc`, `env_names`, `env_vars`, `validators`, `default_tags`,
the cloudmap settings and the boto3 sessions) are omitted. -/
structure XRes where
  name : String
  module_name : String
  mapping_key : String
  definition : PyVal
  settings : PyVal
  use : PyVal
  lookup : PyVal
  properties : PyVal
  parameters : PyVal
  uses_default : Bool
  logical_name : String
  cfn_resource : Option String
  output_properties : List (Parameter × OutputDef)
  outputs : List OutputRec
  attributes_outputs : List (Parameter × AttrOut)
  lookup_properties : Props
  mappings : List (String × PyVal)
  ref_parameter : Option Parameter
  stack : Option StackRef
  arn : Option String
  cloud_control_attributes_mapping : List (Parameter × String)
  native_attributes_mapping : List (Parameter × String)
deriving Repr

/-- Shallow embedding of `XResource.__init__` (lines 54–129).  The
JSON-schema validation and the lookup-session acquisition are calls into
external collaborators (jsonschema / boto3) with no effect on the embedded
state and are omitted; `deepcopy(definition)` is the identity on pure
values.  Python `None` is `PyVal.pynone`. -/
def XResource_init (name : String) (definition : PyVal) (module_name : String)
    (mapping_key : Option String) : XRes :=
  let lookup := if keyisset "Lookup" definition then pyGet "Lookup" definition else .pynone
  let properties :=
    if keyisset "Properties" definition && !truthy lookup then
      pyGet "Properties" definition
    else if !keyisset "Properties" definition && keypresent "Properties" definition then
      .pydict []
    else
      .pynone
  let parameters :=
    if keyisset "MacroParameters" definition then pyGet "MacroParameters" definition
    else .pydict []
  let use := if keyisset "Use" definition then pyGet "Use" definition else .pynone
  let settings := if keyisset "Settings" definition then pyGet "Settings" definition else .pynone
  { name := name
    module_name := module_name
    mapping_key := mapping_key.getD module_name
    definition := definition
    settings := settings
    use := use
    lookup := lookup
    properties := properties
    parameters := parameters
    uses_default := !(truthy lookup || truthy parameters || truthy use || truthy properties)
    logical_name := stripNonAlnum name
    cfn_resource := none
    output_properties := []
    outputs := []
    attributes_outputs := []
    lookup_properties := []
    mappings := []
    ref_parameter := none
    stack := none
    arn := none
    cloud_control_attributes_mapping := []
    native_attributes_mapping := [] }

/-- Modelled from the spec: `CFN_EXPORT_DELIMITER` from
`ecs_composex/common/ecs_composex.py` (not under `src/`); §8 of the
specification shows the delimiter as `::` in the export-naming example. -/
def DELIM : String := "::"

/-- The `${STACK_NAME}` placeholder of the `Sub` export-name template; the
deploy-time substitution `STACK_NAME=define_stack_name()` resolves it to
the template scope's stack name. -/
def STACK_SCOPE : String := "${STACK_NAME}"

/-- Rendering a Python value inside an f-string (`f"...{value}..."`); only
the scalar cases are exercised by the verified code. -/
def pyFormat : PyVal → String
  | .pynone => "None"
  | .pybool b => if b then "True" else "False"
  | .pyint n => toString n
  | .pystr s => s
  | v => reprStr v

/-- `XResource.define_export_name` (lines 407–427): the 5-element truthy
suffix form exports `{scope}::{name}::{suffix}`, every other form exports
`{scope}::{logical_name}::{attribute title}`. -/
def define_export_name (r : XRes) (output_definition : OutputDef)
    (attribute_parameter : Parameter) : String :=
  match output_definition.suffix with
  | some sv =>
    if truthy sv then
      STACK_SCOPE ++ DELIM ++ r.name ++ DELIM ++ pyFormat sv
    else
      STACK_SCOPE ++ DELIM ++ r.logical_name ++ DELIM ++ attribute_parameter.title
  | none => STACK_SCOPE ++ DELIM ++ r.logical_name ++ DELIM ++ attribute_parameter.title

/-- The title used when a non-`AWSObject` value stands where troposphere
expects a referenceable object. -/
def srcTitle : SrcObj → String
  | .aws t => t
  | .other v => pyFormat v

/-- `XResource.set_new_resource_outputs` (lines 429–468): selects the
value-expression form from `output_definition[2]` (`Ref` only for an
`AWSObject` source, `GetAtt`, `Sub`, `Join` — whose argument must be a
list, else `ValueError` — or a primitive literal when
`output_definition[3] is False`), raising `TypeError` for any other
combination, then builds the export record. -/
def set_new_resource_outputs (r : XRes) (output_definition : OutputDef)
    (attribute_parameter : Parameter) : Except PyErr (CfnValue × String) := do
  let value : CfnValue ←
    match output_definition.kind, output_definition.src with
    | .kRef, .aws t => pure (.ref t)
    | .kGetAtt, src => pure (.getAtt (srcTitle src) output_definition.extra)
    | .kSub, _ => pure (.subst output_definition.extra)
    | .kJoin, _ =>
      match output_definition.extra with
      | .pylist xs => pure (.join xs)
      | _ => throw (.valueError ["For Join, the parameter must be", "list"])
    | .kStr s, _ =>
      match output_definition.extra with
      | .pybool false => pure (.lit s)
      | _ => throw (.typeError ["3rd argument for " ++ output_definition.name ++ " must be one of",
          "(Ref, GetAtt, Sub, Join)"])
    | .kInt n, _ =>
      match output_definition.extra with
      | .pybool false => pure (.lit (toString n))
      | _ => throw (.typeError ["3rd argument for " ++ output_definition.name ++ " must be one of",
          "(Ref, GetAtt, Sub, Join)"])
    | _, _ => throw (.typeError ["3rd argument for " ++ output_definition.name ++ " must be one of",
        "(Ref, GetAtt, Sub, Join)"])
  let export_name := define_export_name r output_definition attribute_parameter
  return (value, export_name)

/-- `XResource.set_attributes_from_mapping` (lines 388–405): the deferred
`FindInMap(mapping_key, logical_name, normalized key)` expression, keyed by
the attribute's normalized `return_value` alias when one is declared, else
its title. -/
def set_attributes_from_mapping (r : XRes) (attribute_parameter : Parameter) : CfnValue :=
  if strOptTruthy attribute_parameter.return_value then
    .findInMap r.mapping_key r.logical_name
      (stripNonAlnum (attribute_parameter.return_value.getD ""))
  else
    .findInMap r.mapping_key r.logical_name attribute_parameter.title

/-- The `Parameter(output_name, group_label=..., return_value=..., Type=...)`
built for each `attributes_outputs` entry by `generate_outputs`. -/
def import_parameter (r : XRes) (output_name : String)
    (attribute_parameter : Parameter) : Parameter :=
  { title := output_name
    group_label :=
      some (if strOptTruthy attribute_parameter.group_label then
        attribute_parameter.group_label.getD ""
      else r.module_name)
    return_value := attribute_parameter.return_value
    ptype := attribute_parameter.ptype }

/-- The `attributes_outputs` entry built for one lookup attribute by the
first branch of `generate_outputs` (lines 491–507): no `Output` key, an
`ImportValue` deferred through `FindInMap`. -/
def lookup_attr_entry (r : XRes) (attribute_parameter : Parameter) : AttrOut :=
  let output_name := r.logical_name ++ attribute_parameter.title
  { Name := output_name
    Output := none
    ImportValue := set_attributes_from_mapping r attribute_parameter
    ImportParameter := import_parameter r output_name attribute_parameter
    Original := none }

/-- The `attributes_outputs` entry built for one new-resource output by the
second branch of `generate_outputs` (lines 508–535): a registered `Output`
with its export record, and an `ImportValue` reading
`GetAtt(root_stack, "Outputs.<name>")`. -/
def new_attr_entry (r : XRes) (root_stack : String) (attribute_parameter : Parameter)
    (output_definition : OutputDef) : Except PyErr AttrOut := do
  let output_name := stripNonAlnum output_definition.name
  let settings ← set_new_resource_outputs r output_definition attribute_parameter
  return { Name := output_name
           Output := some ⟨output_name, settings.1, settings.2⟩
           ImportParameter := import_parameter r output_name attribute_parameter
           ImportValue := .getAtt root_stack (.pystr ("Outputs." ++ output_name))
           Original := some attribute_parameter }

/-- The loop of the lookup branch of `generate_outputs`: assigns one
registry entry per lookup attribute; a non-`Parameter` key raises
`AttributeError` when its `group_label` attribute is read, leaving the
entries assigned so far in place. -/
def genLookupLoop (r : XRes) :
    Props → List (Parameter × AttrOut) → List (Parameter × AttrOut) × Option PyErr
  | [], ao => (ao, none)
  | (k, _) :: rest, ao =>
    match k with
    | .strKey _ => (ao, some (.attributeError ["str object has no attribute group_label"]))
    | .param p => genLookupLoop r rest (assocSet p (lookup_attr_entry r p) ao)

/-- The loop of the new-resource branch of `generate_outputs`: assigns one
registry entry per raw output spec, aborting on the first malformed spec
with the entries assigned so far in place. -/
def genNewLoop (r : XRes) (root_stack : String) :
    List (Parameter × OutputDef) → List (Parameter × AttrOut) →
      List (Parameter × AttrOut) × Option PyErr
  | [], ao => (ao, none)
  | (ap, od) :: rest, ao =>
    match new_attr_entry r root_stack ap od with
    | .error e => (ao, some e)
    | .ok entry => genNewLoop r root_stack rest (assocSet ap entry ao)

/-- The `root_stack` selector of `generate_outputs` (lines 487–490). -/
def root_stack_of (r : XRes) : String :=
  match r.stack with
  | some st => if !st.is_void then st.title else r.mapping_key
  | none => r.mapping_key

/-- The final loop of `generate_outputs` (lines 536–538): the `Output`
values of the registry entries that have one, in registry order. -/
def outSeg (ao : List (Parameter × AttrOut)) : List OutputRec :=
  ao.filterMap fun kv => kv.2.Output

/-- `XResource.generate_outputs` (lines 483–538).  Rebuilds the
`attributes_outputs` registry from `lookup_properties` (when truthy) or
`output_properties`, then **appends** every registry entry's `Output` to
`self.outputs`.  Returns the mutated state together with the exception, if
one was raised mid-loop (the final append loop does not run in that
case). -/
def generate_outputs (r : XRes) : XRes × Option PyErr :=
  match
    (if !r.lookup_properties.isEmpty then
      genLookupLoop r r.lookup_properties r.attributes_outputs
    else if !r.output_properties.isEmpty && r.lookup_properties.isEmpty then
      genNewLoop r (root_stack_of r) r.output_properties r.attributes_outputs
    else
      (r.attributes_outputs, none)) with
  | (ao, some e) => ({ r with attributes_outputs := ao }, some e)
  | (ao, none) =>
    ({ r with attributes_outputs := ao, outputs := r.outputs ++ outSeg ao }, none)

/-- `XResource.add_new_output_attribute` (lines 470–481): stores or
replaces the attribute's raw output spec, then re-runs
`generate_outputs`. -/
def add_new_output_attribute (r : XRes) (attribute_id : Parameter)
    (attribute_config : OutputDef) : XRes × Option PyErr :=
  let op :=
    if r.output_properties.isEmpty then [(attribute_id, attribute_config)]
    else assocSet attribute_id attribute_config r.output_properties
  generate_outputs { r with output_properties := op }

/-- The environment-variable name synthesized by `generate_ref_env_var`:
`ENV_VAR_NAME.sub("", name.upper().replace("-", "_"))`. -/
def refEnvVarName (name : String) : String :=
  stripNonEnvVar (pyDashToUnder (pyUpper name))

/-- `XResource.generate_ref_env_var` (lines 355–386).  When
`ref_parameter` is unset the method **logs an error and returns `[]`**;
otherwise it returns exactly one entry (threaded through the import
parameter for a new resource, through the deferred `ImportValue` for a
looked-up one) or raises `ValueError` when neither provenance offers a
binding.  The template-side parameter threading
(`get_parameter_settings` / `add_parameters`, repo code outside `src/`
mutating only the consumer's template per §4.4 of the spec) does not
affect the returned list and is omitted. -/
def generate_ref_env_var (r : XRes) : Except PyErr (List Environment) :=
  match r.ref_parameter with
  | none => .ok []
  | some rp =>
    let env_var_name := refEnvVarName r.name
    if r.cfn_resource.isSome && !r.attributes_outputs.isEmpty then
      match assocFind rp r.attributes_outputs with
      | none => .error (.keyError [rp.title])
      | some entry => .ok [⟨env_var_name, .ref entry.ImportParameter.title⟩]
    else if !r.lookup_properties.isEmpty then
      match assocFind rp r.attributes_outputs with
      | none => .error (.keyError [rp.title])
      | some entry => .ok [⟨env_var_name, entry.ImportValue⟩]
    else
      .error (.valueError [r.module_name ++ "." ++ r.name ++ " - Unable to set the default env var"])

/-- The `res_return_names` map of `generate_resource_service_env_vars`
(lines 302–307): each registry key indexed by its `return_value` alias when
truthy, else by its title. -/
def res_return_names (r : XRes) : List (String × Parameter) :=
  r.attributes_outputs.foldl
    (fun acc kv =>
      if strOptTruthy kv.1.return_value then
        assocSet (kv.1.return_value.getD "") kv.1 acc
      else
        assocSet kv.1.title kv.1 acc)
    []

/-- `XResource.generate_resource_service_env_vars` (lines 295–353).
Returns the environment entries for the requested aliases together with
the (mutated) consumer mapping `target_definition`.  When `ref_parameter`
is unset the `else` branch's log line dereferences
`self.ref_parameter.title` and raises `AttributeError`.  The template-side
parameter threading (`get_parameter_settings` / `add_parameters`, repo
code outside `src/` mutating only the consumer's template per §4.4 of the
spec) does not affect the returned entries and is omitted. -/
def generate_resource_service_env_vars (r : XRes)
    (target_definition : List (String × String)) :
    Except PyErr (List Environment × List (String × String)) :=
  let rrn := res_return_names r
  match r.ref_parameter with
  | none => .error (.attributeError ["NoneType object has no attribute title"])
  | some rp =>
    let tdef :=
      if (assocFind rp.title target_definition).isNone then
        assocSet rp.title (stripNonEnvVar (pyUpper (pyDashToUnder r.name)))
          target_definition
      else
        target_definition
    match tdef.foldlM
      (fun (acc : List Environment) kv =>
        (match assocFind kv.1 rrn with
        | none => Except.ok acc
        | some p =>
          if r.cfn_resource.isSome then
            match assocFind p r.attributes_outputs with
            | none => Except.error (PyErr.keyError [p.title])
            | some entry =>
              Except.ok (acc ++ [Environment.mk kv.2 (CfnValue.ref entry.ImportParameter.title)])
          else if !r.lookup_properties.isEmpty then
            match assocFind p r.attributes_outputs with
            | none => Except.error (PyErr.keyError [p.title])
            | some entry => Except.ok (acc ++ [Environment.mk kv.2 entry.ImportValue])
          else
            Except.ok acc : Except PyErr (List Environment)))
      ([] : List Environment) with
    | .error e => .error e
    | .ok env_vars => .ok (env_vars, tdef)

/-- The named groups `id` and `accountid` captured by a resource type's
identity (ARN) regular expression. -/
structure ArnGroups where
  id : String
  accountid : String
deriving Repr, DecidableEq

/-- A resource type's compiled identity pattern (`arn_re` in the source):
its pattern text and its matching function (`re.Pattern.match`, returning
the captured groups on success). -/
structure ArnRe where
  pattern : String
  matchArn : String → Option ArnGroups

/-- Modelled from the spec: `compose_x_common.attributes_to_mapping` (an
external library dependency) "remap[s] returned field names through the
table" — for each `(attribute parameter, source field)` row of the table,
the raw map's set value at the source field, when any, becomes the value
of the attribute parameter. -/
def attributes_to_mapping (properties : Props)
    (mapping : List (Parameter × String)) : Props :=
  mapping.foldl
    (fun acc kv =>
      match assocFind (PropKey.strKey kv.2) properties with
      | some v => if truthy v then acc ++ [(PropKey.param kv.1, v)] else acc
      | none => acc)
    []

/-- The outcome of the single `cloudcontrol get_resource` call made by
`cloud_control_attributes_mapping_lookup`: the decoded
`ResourceDescription.Properties`, the `UnsupportedActionException`, or any
other client error. -/
inductive CCOutcome where
  | props (p : Props)
  | unsupported
  | err (e : PyErr)

/-- The external collaborators consumed by one `lookup_resource` call: the
caller's own account id (`get_account_id`), the cloud-control description
outcome, and the ARN found by the tag search (`none` when the search
yields zero candidates). -/
structure LookupCtx where
  own_account : String
  cc : CCOutcome
  tag_arn : Option String

/-- `XResource.cloud_control_attributes_mapping_lookup` (lines 179–198):
queries the generic cloud-control description interface and remaps the
returned fields through the declared table; the
`UnsupportedActionException` is swallowed into an empty result, any other
client error propagates. -/
def cloud_control_attributes_mapping_lookup (r : XRes) (cc : CCOutcome) :
    Except PyErr Props :=
  match cc with
  | .props p => .ok (attributes_to_mapping p r.cloud_control_attributes_mapping)
  | .unsupported => .ok []
  | .err e => .error e

/-- `XResource.native_attributes_mapping_lookup` (lines 200–207): calls the
resource-type-specific native description function with
`(account_id, resource_id)` and remaps its result through the declared
native table when one is declared, else returns it raw. -/
def native_attributes_mapping_lookup (r : XRes) (account_id resource_id : String)
    (function : String → String → Props) : Props :=
  let properties := function account_id resource_id
  if !r.native_attributes_mapping.isEmpty then
    attributes_to_mapping properties r.native_attributes_mapping
  else
    properties

/-- The two-tier attribute resolution of `lookup_resource` (lines
264–273): tier 1 (cloud control) runs only when the resolved owner account
is the caller's own account and the type declares a generic mapping table;
whenever tier 1 produced no data, tier 2 (the native description function)
runs. -/
def lookup_props_resolve (r : XRes) (own_account : String) (cc : CCOutcome)
    (account_id resource_id : String)
    (native_lookup_function : String → String → Props) : Except PyErr Props :=
  match
    (if own_account = account_id && !r.cloud_control_attributes_mapping.isEmpty then
      cloud_control_attributes_mapping_lookup r cc
    else
      .ok []) with
  | .error e => .error e
  | .ok props =>
    if props.isEmpty then
      .ok (native_attributes_mapping_lookup r account_id resource_id native_lookup_function)
    else
      .ok props

/-- The ARN-branch identity parse of `lookup_resource` (lines 236–244):
a non-matching identity string raises `KeyError` carrying a message that
names the resource and the expected pattern; a matching one yields the
captured `id` and `accountid` groups. -/
def arn_identify (module_name name : String) (arn_re : ArnRe) (arn : String) :
    Except PyErr (String × String) :=
  match arn_re.matchArn arn with
  | none => .error (.keyError
      [module_name ++ "." ++ name ++ " - ARN " ++ arn ++ " is not valid. Must match",
       arn_re.pattern])
  | some g => .ok (g.id, g.accountid)

/-- Modelled from the spec:
`ecs_composex.common.aws.find_aws_resource_arn_from_tags_api` (repo code
not under `src/`) — §4.2 of the specification: the tag query "must yield
exactly one candidate identity string ... Zero matches is a fatal
`LookupNotFoundError`" (a `LookupError`). -/
def find_aws_resource_arn_from_tags_api (tag_arn : Option String) :
    Except PyErr String :=
  match tag_arn with
  | some arn => .ok arn
  | none => .error (.lookupError ["No AWS resources found with the provided tags"])

/-- Python `value[key]` on an embedded value: `TypeError` when the value is
not subscriptable by a string key, `KeyError` when the key is absent. -/
def pySubscript (v : PyVal) (k : String) : Except PyErr PyVal :=
  match v with
  | .pydict kvs =>
    match assocFind k kvs with
    | some w => .ok w
    | none => .error (.keyError [k])
  | _ => .error (.typeError ["object is not subscriptable"])

/-- `XResource.generate_cfn_mappings_from_lookup_properties` (lines
278–293): fills the `.mappings` side table from `lookup_properties`,
raising `TypeError` on any key that is not a `Parameter`; the key used is
the normalized `return_value` alias when truthy, else the title. -/
def generate_cfn_mappings_from_lookup_properties (r : XRes) : XRes × Option PyErr :=
  go r r.lookup_properties
where
  /-- The loop over `lookup_properties.items()`, mutating `.mappings`. -/
  go (r : XRes) : Props → XRes × Option PyErr
    | [] => (r, none)
    | (k, v) :: rest =>
      match k with
      | .strKey s => (r, some (.typeError
          [r.module_name ++ "." ++ r.name ++ " - lookup attribute " ++ s ++ " is",
           "str", "Expected", "Parameter"]))
      | .param p =>
        let key := if strOptTruthy p.return_value then
            stripNonAlnum (p.return_value.getD "")
          else p.title
        go { r with mappings := assocSet key v r.mappings } rest

/-- `XResource.lookup_resource` (lines 215–276).  Identifies the existing
resource from the lookup spec (explicit ARN, or tag query through the
external tag-search interface), resolves its attributes through the
two-tier strategy, then fills the `.mappings` side table and regenerates
the outputs.  Returns the mutated state together with the exception, if
any, raised mid-method (mutations made before the raise stay in place, as
on the Python object). -/
def lookup_resource (r : XRes) (arn_re : ArnRe)
    (native_lookup_function : String → String → Props)
    (subattribute_key : Option String) (ctx : LookupCtx) : XRes × Option PyErr :=
  -- init_outputs(): resets output_properties
  let r0 := { r with output_properties := [] }
  -- lookup_attributes := self.lookup, or self.lookup[subattribute_key]
  match subattribute_key with
  | some k =>
    (match pySubscript r0.lookup k with
     | .error e => (r0, some e)
     | .ok la => lookupIdentified r0 arn_re native_lookup_function ctx la)
  | none => lookupIdentified r0 arn_re native_lookup_function ctx r0.lookup
where
  /-- Lines 231–276, from the branch on the identification method on. -/
  lookupIdentified (r0 : XRes) (arn_re : ArnRe)
      (native_lookup_function : String → String → Props) (ctx : LookupCtx)
      (lookup_attributes : PyVal) : XRes × Option PyErr :=
    let idStep : XRes × Except PyErr (String × String) :=
      if keyisset "Arn" lookup_attributes then
        match pyGet "Arn" lookup_attributes with
        | .pystr s =>
          (match arn_identify r0.module_name r0.name arn_re s with
           | .error e => (r0, .error e)
           | .ok ids => ({ r0 with arn := some s }, .ok ids))
        | _ => (r0, .error (.typeError ["expected string or bytes-like object"]))
      else if keyisset "Tags" lookup_attributes then
        match find_aws_resource_arn_from_tags_api ctx.tag_arn with
        | .error e => (r0, .error e)
        | .ok arn =>
          let r1 := { r0 with arn := some arn }
          (match arn_re.matchArn arn with
           | none => (r1, .error (.attributeError ["NoneType object has no attribute group"]))
           | some g => (r1, .ok (g.id, g.accountid)))
      else
        (r0, .error (.keyError
          [r0.module_name ++ "." ++ r0.name ++
           " - You must specify Arn or Tags to identify existing resource"]))
    match idStep.2 with
    | .error e => (idStep.1, some e)
    | .ok ids =>
      let r1 := idStep.1
      -- if not self.arn: raise LookupError(...)
      if !strOptTruthy r1.arn then
        (r1, some (.lookupError
          [r1.module_name ++ "." ++ r1.name ++
           " - Failed to find the AWS Resource with given tags"]))
      else
        match lookup_props_resolve r1 ctx.own_account ctx.cc ids.2 ids.1
            native_lookup_function with
        | .error e => (r1, some e)
        | .ok props =>
          let r2 := { r1 with lookup_properties := props }
          match generate_cfn_mappings_from_lookup_properties r2 with
          | (r3, some e) => (r3, some e)
          | (r3, none) => generate_outputs r3

/-- The two-tier attribute resolution as the specification words it (§4.2,
step 3), written independently of `lookup_props_resolve` for the
refinement proof: query the generic interface only when the owning account
equals the caller's own account and a generic mapping table is declared,
remap through the table, and whenever that tier yields no data — the
unsupported description action included — fall back to the native
description function on `(ownerAccountId, resourceId)`, remapped through
the native table when one is declared. -/
def two_tier_resolution_spec (r : XRes) (own_account : String) (cc : CCOutcome)
    (account_id resource_id : String)
    (native_lookup_function : String → String → Props) : Except PyErr Props :=
  let raw := native_lookup_function account_id resource_id
  let fallback :=
    if !r.native_attributes_mapping.isEmpty then
      attributes_to_mapping raw r.native_attributes_mapping
    else raw
  if own_account = account_id && !r.cloud_control_attributes_mapping.isEmpty then
    match cc with
    | .unsupported => .ok fallback
    | .props p =>
      let remapped := attributes_to_mapping p r.cloud_control_attributes_mapping
      if remapped.isEmpty then .ok fallback else .ok remapped
    | .err e => .error e
  else
    .ok fallback

/-- The `Parameter` keys of an attribute map (the non-`Parameter` keys are
the ones `generate_cfn_mappings_from_lookup_properties` rejects). -/
def paramKeys (props : Props) : List Parameter :=
  props.filterMap fun kv =>
    match kv.1 with
    | .param p => some p
    | .strKey _ => none

/-! Concrete fixtures used by the witnesses and counterexamples. -/

/-- A plain attribute identifier for new-resource outputs. -/
def apA : Parameter := ⟨"MyresArn", none, none, "String"⟩

/-- A raw output spec: `GetAtt` of attribute `Arn`, 4-element form. -/
def odA1 : OutputDef := ⟨"MyresArn", .aws "Myres", .kGetAtt, .pystr "Arn", none⟩

/-- A second raw output spec for the same attribute id with a different
expression (`GetAtt` of `QueueUrl`). -/
def odA2 : OutputDef := ⟨"MyresArn", .aws "Myres", .kGetAtt, .pystr "QueueUrl", none⟩

/-- A freshly constructed new-provenance resource. -/
def baseNew : XRes :=
  XResource_init "my-res" (.pydict [("Properties", .pydict [("P", .pyint 1)])]) "mod" none

/-- `baseNew` with one raw output spec registered, as a resource-type
module does before generating outputs. -/
def rC1 : XRes := { baseNew with output_properties := [(apA, odA1)] }

/-- The registry entry `generate_outputs` builds from `odA1` on
`baseNew`. -/
def e1fix : AttrOut :=
  { Name := "MyresArn"
    Output := some ⟨"MyresArn", .getAtt "Myres" (.pystr "Arn"),
      "${STACK_NAME}::myres::MyresArn"⟩
    ImportParameter := ⟨"MyresArn", none, some "mod", "String"⟩
    ImportValue := .getAtt "mod" (.pystr "Outputs.MyresArn")
    Original := some apA }

/-- The registry entry `generate_outputs` builds from `odA2` on
`baseNew`. -/
def e2fix : AttrOut :=
  { Name := "MyresArn"
    Output := some ⟨"MyresArn", .getAtt "Myres" (.pystr "QueueUrl"),
      "${STACK_NAME}::myres::MyresArn"⟩
    ImportParameter := ⟨"MyresArn", none, some "mod", "String"⟩
    ImportValue := .getAtt "mod" (.pystr "Outputs.MyresArn")
    Original := some apA }

/-- The attribute parameter of the §8 export-naming example (`Arn`). -/
def apArn : Parameter := ⟨"Arn", none, none, "String"⟩

/-- The resource of the §8 export-naming example: named `my-queue`,
logical name `myqueue`. -/
def rQueue : XRes :=
  XResource_init "my-queue" (.pydict [("Properties", .pydict [("P", .pyint 1)])]) "mod" none

/-- The 5-element output spec of the §8 example, custom suffix
`QueueArn`. -/
def odQ5 : OutputDef := ⟨"MyQueueArn", .aws "MyQueue", .kGetAtt, .pystr "Arn",
  some (.pystr "QueueArn")⟩

/-- The 4-element form of the same output spec. -/
def odQ4 : OutputDef := ⟨"MyQueueArn", .aws "MyQueue", .kGetAtt, .pystr "Arn", none⟩

/-- A freshly constructed lookup-provenance resource. -/
def baseLkp : XRes :=
  XResource_init "my-queue"
    (.pydict [("Lookup", .pydict
      [("Arn", .pystr "arn:aws:sqs:eu-west-1:123456789012:myq")])])
    "mod" none

/-- The registry entry `generate_outputs` builds for `apArn` on
`baseLkp`. -/
def lkEntryFix : AttrOut := lookup_attr_entry baseLkp apArn

/-- `baseLkp` after a successful lookup of the `Arn` attribute, with
`apArn` designated as the ref parameter. -/
def rLfix : XRes :=
  { baseLkp with
    ref_parameter := some apArn
    lookup_properties := [(.param apArn, .pystr "arn:aws:sqs:eu-west-1:123456789012:myq")]
    attributes_outputs := [(apArn, lkEntryFix)] }

/-- Splitting a character list at colons (an executable stand-in for the
field structure a real ARN regular expression captures). -/
def splitColonAux : List Char → List (List Char)
  | [] => [[]]
  | c :: cs =>
    if c = ':' then [] :: splitColonAux cs
    else
      match splitColonAux cs with
      | [] => [[c]]
      | h :: t => (c :: h) :: t

/-- Splitting a string at colons. -/
def splitColon (s : String) : List String :=
  (splitColonAux s.data).map String.mk

/-- A concrete identity pattern in the shape the resource-type modules
pass for `arn_re`: an SQS-like ARN with named groups `accountid` and
`id`. -/
def sqsArnRe : ArnRe :=
  { pattern := "arn:aws:sqs:[a-z0-9-]+:[0-9]{12}:[a-zA-Z0-9_-]+"
    matchArn := fun s =>
      match splitColon s with
      | ["arn", "aws", "sqs", region, acct, name] =>
        if region != "" && acct.length == 12 && acct.toList.all Char.isDigit
            && name != "" then
          some ⟨name, acct⟩
        else none
      | _ => none }

/-- A concrete native description callback: returns one raw string-keyed
attribute. -/
def natFnFix : String → String → Props :=
  fun _account_id resource_id => [(.strKey "QueueArn", .pystr resource_id)]

/-- External-collaborator outcomes: the tag search finds nothing. -/
def ctxTagsNone : LookupCtx := ⟨"123456789012", .unsupported, none⟩

/-- External-collaborator outcomes: same-account caller, cloud control
unsupported, tag search finds one ARN. -/
def ctxOk : LookupCtx :=
  ⟨"123456789012", .unsupported, some "arn:aws:sqs:eu-west-1:123456789012:myq"⟩

/-- A lookup resource whose lookup spec has neither `Arn` nor `Tags`. -/
def rNoId : XRes :=
  XResource_init "my-queue"
    (.pydict [("Lookup", .pydict [("RoleArn", .pystr "some-role")])]) "mod" none

/-- A lookup resource identified by a tag query. -/
def rTags : XRes :=
  XResource_init "my-queue"
    (.pydict [("Lookup", .pydict [("Tags", .pylist [.pydict [("Name", .pystr "q")]])])])
    "mod" none

/-! Helper lemmas about the association-list embedding of Python dicts. -/

theorem assocFind_set_self {α β : Type} [DecidableEq α] (k : α) (v : β)
    (l : List (α × β)) : assocFind k (assocSet k v l) = some v := by
  induction l with
  | nil => simp [assocSet, assocFind]
  | cons hd tl ih =>
    obtain ⟨a, b⟩ := hd
    by_cases h : a = k
    · simp [assocSet, assocFind, h]
    · simpa [assocSet, assocFind, h] using ih

theorem assocFind_set_ne {α β : Type} [DecidableEq α] {k k' : α} (h : k' ≠ k)
    (v : β) (l : List (α × β)) :
    assocFind k' (assocSet k v l) = assocFind k' l := by
  have h' : k ≠ k' := Ne.symm h
  induction l with
  | nil => simp [assocSet, assocFind, h']
  | cons hd tl ih =>
    obtain ⟨a, b⟩ := hd
    by_cases h1 : a = k
    · have h2 : a ≠ k' := fun hc => h' (h1.symm.trans hc)
      simp [assocSet, assocFind, h1, h2, h, h']
    · by_cases h2 : a = k'
      · simp [assocSet, assocFind, h1, h2, h, h']
      · simpa [assocSet, assocFind, h1, h2, h, h'] using ih

theorem assocSet_eq_of_find {α β : Type} [DecidableEq α] {k : α} {v : β}
    {l : List (α × β)} (h : assocFind k l = some v) : assocSet k v l = l := by
  induction l with
  | nil => simp [assocFind] at h
  | cons hd tl ih =>
    obtain ⟨a, b⟩ := hd
    by_cases h1 : a = k
    · have hv : b = v := by
        simpa [assocFind, h1] using h
      simp [assocSet, h1, hv]
    · have hr : assocFind k tl = some v := by
        have := h
        simpa [assocFind, h1] using this
      simp [assocSet, h1, ih hr]

theorem truthy_pyGet_of_keyisset {k : String} {v : PyVal}
    (h : keyisset k v = true) : truthy (pyGet k v) = true := by
  cases v with
  | pydict kvs =>
    cases hf : assocFind k kvs with
    | none => simp [keyisset, hf] at h
    | some w =>
      have : truthy w = true := by simpa [keyisset, hf] using h
      simpa [pyGet, hf] using this
  | pynone => simp [keyisset] at h
  | pybool b => simp [keyisset] at h
  | pyint n => simp [keyisset] at h
  | pystr s => simp [keyisset] at h
  | pylist xs => simp [keyisset] at h

/-! C2 — provenance derivation in `XResource.__init__`. -/

/-- C2, counterexample: a definition carrying only a `Use` key is accepted
by the constructor, yet none of the three provenances is set — the lookup
spec stays `None`, the property map stays `None`, and `uses_default` is
`False` — refuting "exactly one provenance is set". -/
theorem C2_counterexample :
    (XResource_init "demo" (.pydict [("Use", .pystr "x")]) "mod" none).lookup = .pynone
    ∧ (XResource_init "demo" (.pydict [("Use", .pystr "x")]) "mod" none).properties = .pynone
    ∧ (XResource_init "demo" (.pydict [("Use", .pystr "x")]) "mod" none).uses_default = false :=
  ⟨rfl, rfl, rfl⟩

/-- C2, amended: at most one provenance is set (never both New and Lookup,
and Default excludes both); the lookup spec is set exactly when the
`Lookup` key is present with a truthy value; the property map is truthy
exactly when the `Properties` key is present with a truthy value and no
lookup spec is set; `uses_default` holds exactly when the derived lookup,
macro-parameters, use and properties values are all falsy.  Zero
provenances are possible (see the counterexample). -/
theorem truthy_pynone_eq : truthy PyVal.pynone = false := rfl

theorem truthy_emptydict_eq : truthy (PyVal.pydict []) = false := rfl

theorem init_lookup_truthy (name : String) (d : PyVal) (module_name : String)
    (mapping_key : Option String) :
    truthy (XResource_init name d module_name mapping_key).lookup = keyisset "Lookup" d := by
  by_cases hL : keyisset "Lookup" d
  · simp [XResource_init, hL, truthy_pyGet_of_keyisset hL]
  · simp only [Bool.not_eq_true] at hL
    simp [XResource_init, hL, truthy_pynone_eq]

theorem init_properties_truthy (name : String) (d : PyVal) (module_name : String)
    (mapping_key : Option String) :
    truthy (XResource_init name d module_name mapping_key).properties =
      (keyisset "Properties" d && !keyisset "Lookup" d) := by
  by_cases hL : keyisset "Lookup" d
  · have hlt := truthy_pyGet_of_keyisset hL
    by_cases hQ : keypresent "Properties" d
    · by_cases hP : keyisset "Properties" d
      · simp [XResource_init, hL, hP, hQ, hlt, truthy_pynone_eq, truthy_emptydict_eq]
      · simp only [Bool.not_eq_true] at hP
        simp [XResource_init, hL, hP, hQ, hlt, truthy_pynone_eq, truthy_emptydict_eq]
    · simp only [Bool.not_eq_true] at hQ
      by_cases hP : keyisset "Properties" d
      · simp [XResource_init, hL, hP, hQ, hlt, truthy_pynone_eq, truthy_emptydict_eq]
      · simp only [Bool.not_eq_true] at hP
        simp [XResource_init, hL, hP, hQ, hlt, truthy_pynone_eq, truthy_emptydict_eq]
  · simp only [Bool.not_eq_true] at hL
    by_cases hP : keyisset "Properties" d
    · simp [XResource_init, hL, hP, truthy_pyGet_of_keyisset hP, truthy_pynone_eq]
    · simp only [Bool.not_eq_true] at hP
      by_cases hQ : keypresent "Properties" d
      · simp [XResource_init, hL, hP, hQ, truthy_pynone_eq, truthy_emptydict_eq]
      · simp only [Bool.not_eq_true] at hQ
        simp [XResource_init, hL, hP, hQ, truthy_pynone_eq, truthy_emptydict_eq]

theorem init_uses_default_eq (name : String) (d : PyVal) (module_name : String)
    (mapping_key : Option String) :
    (XResource_init name d module_name mapping_key).uses_default =
      (!(truthy (XResource_init name d module_name mapping_key).lookup
        || truthy (XResource_init name d module_name mapping_key).parameters
        || truthy (XResource_init name d module_name mapping_key).use
        || truthy (XResource_init name d module_name mapping_key).properties)) := rfl

theorem C2_provenance_amended (name : String) (d : PyVal) (module_name : String)
    (mapping_key : Option String) :
    (truthy (XResource_init name d module_name mapping_key).lookup = keyisset "Lookup" d)
    ∧ (truthy (XResource_init name d module_name mapping_key).properties =
        (keyisset "Properties" d && !keyisset "Lookup" d))
    ∧ ¬(truthy (XResource_init name d module_name mapping_key).lookup = true
        ∧ truthy (XResource_init name d module_name mapping_key).properties = true)
    ∧ ((XResource_init name d module_name mapping_key).uses_default = true ↔
        (truthy (XResource_init name d module_name mapping_key).lookup = false
         ∧ truthy (XResource_init name d module_name mapping_key).parameters = false
         ∧ truthy (XResource_init name d module_name mapping_key).use = false
         ∧ truthy (XResource_init name d module_name mapping_key).properties = false))
    ∧ ¬((XResource_init name d module_name mapping_key).uses_default = true
        ∧ truthy (XResource_init name d module_name mapping_key).lookup = true)
    ∧ ¬((XResource_init name d module_name mapping_key).uses_default = true
        ∧ truthy (XResource_init name d module_name mapping_key).properties = true) := by
  have hlk := init_lookup_truthy name d module_name mapping_key
  have hpr := init_properties_truthy name d module_name mapping_key
  have hdef := init_uses_default_eq name d module_name mapping_key
  refine ⟨hlk, hpr, ?_, ?_, ?_, ?_⟩
  · rintro ⟨h1, h2⟩
    rw [hlk] at h1
    rw [hpr, h1] at h2
    simp at h2
  · rw [hdef]
    constructor
    · intro h
      simp only [Bool.not_eq_true', Bool.or_eq_false_iff] at h
      exact ⟨h.1.1.1, h.1.1.2, h.1.2, h.2⟩
    · rintro ⟨h1, h2, h3, h4⟩
      simp [h1, h2, h3, h4]
  · rintro ⟨h1, h2⟩
    rw [hdef] at h1
    simp only [Bool.not_eq_true', Bool.or_eq_false_iff] at h1
    rw [h1.1.1.1] at h2
    simp at h2
  · rintro ⟨h1, h2⟩
    rw [hdef] at h1
    simp only [Bool.not_eq_true', Bool.or_eq_false_iff] at h1
    rw [h1.2] at h2
    simp at h2

/-- C2, witness: the amended theorem applied to a definition with a truthy
`Lookup` key — the lookup provenance is set and `uses_default` is not. -/
theorem C2_provenance_amended_witness :
    truthy (XResource_init "demo"
      (.pydict [("Lookup", .pydict [("Arn", .pystr "a")])]) "mod" none).lookup = true
    ∧ ¬((XResource_init "demo"
      (.pydict [("Lookup", .pydict [("Arn", .pystr "a")])]) "mod" none).uses_default = true
        ∧ truthy (XResource_init "demo"
      (.pydict [("Lookup", .pydict [("Arn", .pystr "a")])]) "mod" none).lookup = true) := by
  have h := C2_provenance_amended "demo"
    (.pydict [("Lookup", .pydict [("Arn", .pystr "a")])]) "mod" none
  exact ⟨h.1.trans (by rfl), h.2.2.2.2.1⟩

/-! C6 — export naming in `define_export_name`. -/

/-- C6: for every new-resource output definition the export name is
`{scope}{delimiter}{logical_name}{delimiter}{attribute_title}`, except that
when the output tuple has the 5-element form with a truthy 5th element the
export name is `{scope}{delimiter}{resource_name}{delimiter}{custom_suffix}`
— built on the raw resource name, not the logical name. -/
theorem C6_export_name (r : XRes) (od : OutputDef) (ap : Parameter) :
    (∀ sv : PyVal, od.suffix = some sv → truthy sv = true →
      define_export_name r od ap =
        STACK_SCOPE ++ DELIM ++ r.name ++ DELIM ++ pyFormat sv)
    ∧ (∀ sv : PyVal, od.suffix = some sv → truthy sv = false →
      define_export_name r od ap =
        STACK_SCOPE ++ DELIM ++ r.logical_name ++ DELIM ++ ap.title)
    ∧ (od.suffix = none →
      define_export_name r od ap =
        STACK_SCOPE ++ DELIM ++ r.logical_name ++ DELIM ++ ap.title) := by
  refine ⟨?_, ?_, ?_⟩
  · intro sv hs ht
    simp [define_export_name, hs, ht]
  · intro sv hs ht
    simp [define_export_name, hs, ht]
  · intro hs
    simp [define_export_name, hs]

/-- C6, witness: the §8 example — resource `my-queue` (logical name
`myqueue`), attribute title `Arn`: the 5-element truthy-suffix form
exports `${STACK_NAME}::my-queue::QueueArn`, the 4-element form exports
`${STACK_NAME}::myqueue::Arn`. -/
theorem C6_export_name_witness :
    define_export_name rQueue odQ5 apArn = "${STACK_NAME}::my-queue::QueueArn"
    ∧ define_export_name rQueue odQ4 apArn = "${STACK_NAME}::myqueue::Arn" := by
  constructor
  · have h := (C6_export_name rQueue odQ5 apArn).1 (.pystr "QueueArn") rfl rfl
    simpa using h
  · have h := (C6_export_name rQueue odQ4 apArn).2.2 rfl
    simpa using h

/-! C8 — the default ref environment entry of `generate_ref_env_var`. -/

/-- C8, counterexample: on a resource whose `ref_parameter` is unset,
`generate_ref_env_var` does not raise any error — it logs and returns the
empty list — refuting the claimed fatal `MissingRefAttributeError` (no
such error class exists in the code). -/
theorem C8_counterexample : generate_ref_env_var baseNew = .ok [] := rfl

/-- C8, amended: when `ref_parameter` is unset, `generate_ref_env_var`
logs an error and returns the empty list (no exception).  When it is set,
exactly one entry is returned — referencing the import parameter for a new
resource with attribute outputs, or the deferred `ImportValue` for a
looked-up resource — and when neither provenance offers a binding, a
`ValueError` is raised.  The entry's name is the resource's own name
uppercased with hyphens mapped to underscores and all other characters
outside `[A-Za-z0-9_]` stripped (underscores are kept; `my-queue` becomes
`MY_QUEUE`, not `MYQUEUE`). -/
theorem C8_ref_env_var_amended (r : XRes) :
    (r.ref_parameter = none → generate_ref_env_var r = .ok [])
    ∧ (∀ rp entry, r.ref_parameter = some rp → r.cfn_resource.isSome = true →
        r.attributes_outputs.isEmpty = false →
        assocFind rp r.attributes_outputs = some entry →
        generate_ref_env_var r =
          .ok [⟨refEnvVarName r.name, .ref entry.ImportParameter.title⟩])
    ∧ (∀ rp entry, r.ref_parameter = some rp → r.cfn_resource = none →
        r.lookup_properties.isEmpty = false →
        assocFind rp r.attributes_outputs = some entry →
        generate_ref_env_var r = .ok [⟨refEnvVarName r.name, entry.ImportValue⟩])
    ∧ (∀ rp, r.ref_parameter = some rp → r.cfn_resource = none →
        r.lookup_properties = [] →
        generate_ref_env_var r = .error (.valueError
          [r.module_name ++ "." ++ r.name ++ " - Unable to set the default env var"]))
    ∧ refEnvVarName "my-queue" = "MY_QUEUE" := by
  refine ⟨?_, ?_, ?_, ?_, rfl⟩
  · intro h
    simp [generate_ref_env_var, h]
  · intro rp entry h hc ha hf
    simp [generate_ref_env_var, h, hc, ha, hf]
  · intro rp entry h hc hl hf
    simp [generate_ref_env_var, h, hc, hl, hf]
  · intro rp h hc hl
    simp [generate_ref_env_var, h, hc, hl]

/-- C8, witness: the amended theorem applied to a looked-up resource with
`Arn` designated as ref parameter — exactly one deferred entry comes
back. -/
theorem C8_ref_env_var_amended_witness :
    generate_ref_env_var rLfix = .ok [⟨refEnvVarName rLfix.name, lkEntryFix.ImportValue⟩] :=
  (C8_ref_env_var_amended rLfix).2.2.1 apArn lkEntryFix rfl rfl rfl rfl

/-! C10 — `generate_resource_service_env_vars` requires `ref_parameter`. -/

/-- C10: for every call with `ref_parameter` unset,
`generate_resource_service_env_vars` raises `AttributeError` (the `else`
logging branch dereferences `self.ref_parameter.title`) instead of
returning entries, whatever the consumer's requested alias mapping. -/
theorem C10_service_env_vars_requires_ref (r : XRes)
    (target_definition : List (String × String)) (h : r.ref_parameter = none) :
    generate_resource_service_env_vars r target_definition =
      .error (.attributeError ["NoneType object has no attribute title"]) := by
  simp [generate_resource_service_env_vars, h]

/-- C10, witness: the theorem applied to a fresh resource (whose
`ref_parameter` is `None`) and a valid alias mapping. -/
theorem C10_service_env_vars_requires_ref_witness :
    generate_resource_service_env_vars baseNew [("MyresArn", "Q_ARN")] =
      .error (.attributeError ["NoneType object has no attribute title"]) :=
  C10_service_env_vars_requires_ref baseNew [("MyresArn", "Q_ARN")] rfl

/-! C9 — `lookup_resource` requires `Arn` or `Tags`. -/

/-- C9: for every lookup spec carrying neither a truthy `Arn` key nor a
truthy `Tags` key, `lookup_resource` raises a `KeyError` stating that Arn
or Tags must be specified, and the returned state differs from the input
only by the `init_outputs()` reset of `output_properties` — in particular
`lookup_properties`, `mappings` and `attributes_outputs` are untouched. -/
theorem C9_arn_or_tags_required (r : XRes) (arn_re : ArnRe)
    (native_lookup_function : String → String → Props) (ctx : LookupCtx)
    (hA : keyisset "Arn" r.lookup = false) (hT : keyisset "Tags" r.lookup = false) :
    lookup_resource r arn_re native_lookup_function none ctx =
      ({ r with output_properties := [] },
       some (.keyError [r.module_name ++ "." ++ r.name ++
         " - You must specify Arn or Tags to identify existing resource"])) := by
  simp [lookup_resource, lookup_resource.lookupIdentified, hA, hT]

/-- C9, witness: a lookup spec carrying only a `RoleArn` key. -/
theorem C9_arn_or_tags_required_witness :
    lookup_resource rNoId sqsArnRe natFnFix none ctxOk =
      ({ rNoId with output_properties := [] },
       some (.keyError ["mod.my-queue - You must specify Arn or Tags to identify existing resource"])) := by
  have h := C9_arn_or_tags_required rNoId sqsArnRe natFnFix ctxOk rfl rfl
  simpa using h

/-! C4 — zero tag-search candidates is a fatal lookup error. -/

/-- C4: for every lookup resolved via a tag query, when the external
tag-search interface yields zero candidates, `lookup_resource` raises a
fatal `LookupError` and the returned state differs from the input only by
the `init_outputs()` reset — no binding registry entries are produced. -/
theorem C4_tag_lookup_not_found (r : XRes) (arn_re : ArnRe)
    (native_lookup_function : String → String → Props) (ctx : LookupCtx)
    (hA : keyisset "Arn" r.lookup = false) (hT : keyisset "Tags" r.lookup = true)
    (hz : ctx.tag_arn = none) :
    lookup_resource r arn_re native_lookup_function none ctx =
      ({ r with output_properties := [] },
       some (.lookupError ["No AWS resources found with the provided tags"])) := by
  simp [lookup_resource, lookup_resource.lookupIdentified,
    find_aws_resource_arn_from_tags_api, hA, hT, hz]

/-- C4, witness: a tag query on a lookup resource while the search
interface finds nothing. -/
theorem C4_tag_lookup_not_found_witness :
    lookup_resource rTags sqsArnRe natFnFix none ctxTagsNone =
      ({ rTags with output_properties := [] },
       some (.lookupError ["No AWS resources found with the provided tags"])) :=
  C4_tag_lookup_not_found rTags sqsArnRe natFnFix ctxTagsNone rfl rfl rfl

/-! C5 — the two-tier attribute resolution. -/

/-- C5: the attribute resolution of `lookup_resource` refines the
specification's two-tier strategy — the generic cloud-control interface is
consulted exactly when the owner account equals the caller's own account
and a generic mapping table is declared; an empty tier-1 result (the
swallowed unsupported-action case included) falls back to the native
description function on `(ownerAccountId, resourceId)`, remapped through
the native table when one is declared. -/
theorem C5_two_tier_resolution (r : XRes) (own_account : String) (cc : CCOutcome)
    (account_id resource_id : String)
    (native_lookup_function : String → String → Props) :
    lookup_props_resolve r own_account cc account_id resource_id native_lookup_function =
      two_tier_resolution_spec r own_account cc account_id resource_id
        native_lookup_function := by
  by_cases hc : own_account = account_id && !r.cloud_control_attributes_mapping.isEmpty
  · cases cc with
    | props p =>
      simp only [lookup_props_resolve, two_tier_resolution_spec,
        cloud_control_attributes_mapping_lookup, native_attributes_mapping_lookup, hc,
        if_true]
    | unsupported =>
      simp [lookup_props_resolve, two_tier_resolution_spec,
        cloud_control_attributes_mapping_lookup, native_attributes_mapping_lookup, hc]
    | err e =>
      simp [lookup_props_resolve, two_tier_resolution_spec,
        cloud_control_attributes_mapping_lookup, hc]
  · cases cc with
    | props p =>
      simp [lookup_props_resolve, two_tier_resolution_spec,
        native_attributes_mapping_lookup, hc]
    | unsupported =>
      simp [lookup_props_resolve, two_tier_resolution_spec,
        native_attributes_mapping_lookup, hc]
    | err e =>
      simp [lookup_props_resolve, two_tier_resolution_spec,
        native_attributes_mapping_lookup, hc]

/-! Preservation lemmas: the binding steps never touch the recorded ARN. -/

theorem generate_outputs_arn (r : XRes) : ((generate_outputs r).1).arn = r.arn := by
  unfold generate_outputs
  split <;> rfl

theorem generate_cfn_mappings_go_arn (lp : Props) : ∀ r : XRes,
    ((generate_cfn_mappings_from_lookup_properties.go r lp).1).arn = r.arn := by
  induction lp with
  | nil =>
    intro r
    rfl
  | cons hd tl ih =>
    intro r
    obtain ⟨k, v⟩ := hd
    cases k with
    | strKey s => rfl
    | param p => exact ih _

theorem generate_cfn_mappings_arn (r : XRes) :
    ((generate_cfn_mappings_from_lookup_properties r).1).arn = r.arn :=
  generate_cfn_mappings_go_arn r.lookup_properties r

/-- The ARN recorded before the attribute-binding tail of
`lookup_resource` survives it. -/
theorem lookup_tail_arn (r2 : XRes) :
    ((match generate_cfn_mappings_from_lookup_properties r2 with
      | (r3, some e) => (r3, some e)
      | (r3, none) => generate_outputs r3).1).arn = r2.arn := by
  rcases h : generate_cfn_mappings_from_lookup_properties r2 with ⟨r3, e3⟩
  have h3 : r3.arn = r2.arn := by
    have h' := generate_cfn_mappings_arn r2
    rw [h] at h'
    exact h'
  cases e3 with
  | some e => exact h3
  | none => exact (generate_outputs_arn r3).trans h3

/-! C3 — explicit-ARN identity parsing. -/

/-- C3: for a lookup spec carrying an explicit ARN string, a string
matching the resource type's identity pattern parses to exactly the
captured `id` and `accountid` components (and `lookup_resource` records
the ARN); a non-matching string makes `lookup_resource` raise a `KeyError`
whose arguments name the expected pattern, and the returned state differs
from the input only by the `init_outputs()` reset — `lookup_properties`,
`mappings` and `attributes_outputs` are untouched, so no binding is
produced. -/
theorem C3_arn_identity (r : XRes) (arn_re : ArnRe)
    (native_lookup_function : String → String → Props) (ctx : LookupCtx) (s : String)
    (hk : keyisset "Arn" r.lookup = true) (hA : pyGet "Arn" r.lookup = .pystr s) :
    (∀ g, arn_re.matchArn s = some g →
      arn_identify r.module_name r.name arn_re s = .ok (g.id, g.accountid)
      ∧ (lookup_resource r arn_re native_lookup_function none ctx).1.arn = some s)
    ∧ (arn_re.matchArn s = none →
      lookup_resource r arn_re native_lookup_function none ctx =
        ({ r with output_properties := [] },
         some (.keyError [r.module_name ++ "." ++ r.name ++ " - ARN " ++ s ++
           " is not valid. Must match", arn_re.pattern]))) := by
  have hs : s ≠ "" := by
    have ht := truthy_pyGet_of_keyisset hk
    rw [hA] at ht
    simpa [truthy] using ht
  constructor
  · intro g hg
    constructor
    · simp [arn_identify, hg]
    · have harn : strOptTruthy (some s) = true := by
        simpa [strOptTruthy] using hs
      simp only [lookup_resource, lookup_resource.lookupIdentified, hk, hA, if_true,
        arn_identify, hg]
      cases hres : lookup_props_resolve { r with output_properties := [], arn := some s }
          ctx.own_account ctx.cc g.accountid g.id native_lookup_function with
      | error e => simp [harn, hres]
      | ok props =>
        simp only [harn, Bool.not_true, Bool.false_eq_true, if_false, hres]
        exact (lookup_tail_arn _).trans rfl
  · intro hg
    simp [lookup_resource, lookup_resource.lookupIdentified, hk, hA, arn_identify, hg]

/-- C3, witness: the §8-style identity string
`arn:aws:sqs:eu-west-1:123456789012:myq` parses to exactly
`id = myq` and `accountid = 123456789012`, and the matched ARN is
recorded on the resource. -/
theorem C3_arn_identity_witness :
    arn_identify "mod" "my-queue" sqsArnRe "arn:aws:sqs:eu-west-1:123456789012:myq" =
      .ok ("myq", "123456789012")
    ∧ (lookup_resource baseLkp sqsArnRe natFnFix none ctxOk).1.arn =
      some "arn:aws:sqs:eu-west-1:123456789012:myq" := by
  have h := (C3_arn_identity baseLkp sqsArnRe natFnFix ctxOk
    "arn:aws:sqs:eu-west-1:123456789012:myq" rfl rfl).1
    ⟨"myq", "123456789012"⟩ rfl
  exact ⟨h.1, h.2⟩

/-! Loop lemmas for the registry-rebuild passes of `generate_outputs`. -/

theorem genLookupLoop_stable (r : XRes) :
    ∀ (es : Props) (ao ao₁ : List (Parameter × AttrOut)) (err : Option PyErr),
      genLookupLoop r es ao = (ao₁, err) →
      ∀ q : Parameter, q ∉ paramKeys es → assocFind q ao₁ = assocFind q ao := by
  intro es
  induction es with
  | nil =>
    intro ao ao₁ err h q _
    cases h
    rfl
  | cons hd tl ih =>
    intro ao ao₁ err h q hq
    obtain ⟨k, v⟩ := hd
    cases k with
    | strKey s =>
      cases h
      rfl
    | param p =>
      have hq1 : q ∉ paramKeys tl := by
        simp only [paramKeys, List.filterMap_cons] at hq
        simp only [paramKeys]
        intro hc
        exact hq (List.mem_cons_of_mem _ hc)
      have hq2 : q ≠ p := by
        intro hc
        apply hq
        simp [paramKeys, List.filterMap_cons, hc]
      exact (ih _ _ _ h q hq1).trans (assocFind_set_ne hq2 _ ao)

theorem genLookupLoop_post (r : XRes) :
    ∀ (es : Props), (paramKeys es).Nodup →
      ∀ ao ao₁, genLookupLoop r es ao = (ao₁, none) →
      ∀ kv ∈ es, ∃ p, kv.1 = .param p
        ∧ assocFind p ao₁ = some (lookup_attr_entry r p) := by
  intro es
  induction es with
  | nil =>
    intro _ ao ao₁ _ kv hkv
    simp at hkv
  | cons hd tl ih =>
    intro hnd ao ao₁ h kv hkv
    obtain ⟨k, v⟩ := hd
    cases k with
    | strKey s => simp [genLookupLoop] at h
    | param p =>
      have hnd' : p ∉ paramKeys tl ∧ (paramKeys tl).Nodup := by
        rw [show paramKeys ((PropKey.param p, v) :: tl) = p :: paramKeys tl from by
          simp [paramKeys, List.filterMap_cons]] at hnd
        exact List.nodup_cons.mp hnd
      rcases List.mem_cons.mp hkv with heq | hmem
      · subst heq
        refine ⟨p, rfl, ?_⟩
        exact (genLookupLoop_stable r tl _ _ _ h p hnd'.1).trans
          (assocFind_set_self p (lookup_attr_entry r p) ao)
      · exact ih hnd'.2 _ _ h kv hmem

theorem genLookupLoop_idem (r : XRes) :
    ∀ (es : Props) (ao : List (Parameter × AttrOut)),
      (∀ kv ∈ es, ∃ p, kv.1 = .param p
        ∧ assocFind p ao = some (lookup_attr_entry r p)) →
      genLookupLoop r es ao = (ao, none) := by
  intro es
  induction es with
  | nil =>
    intro ao _
    rfl
  | cons hd tl ih =>
    intro ao h
    obtain ⟨k, v⟩ := hd
    rcases h (k, v) (List.mem_cons_self _ _) with ⟨p, hk, hf⟩
    simp only at hk
    subst hk
    show genLookupLoop r tl (assocSet p (lookup_attr_entry r p) ao) = (ao, none)
    rw [assocSet_eq_of_find hf]
    exact ih ao fun kv hkv => h kv (List.mem_cons_of_mem _ hkv)

theorem genNewLoop_stable (r : XRes) (rs : String) :
    ∀ (es : List (Parameter × OutputDef)) ao ao₁ err,
      genNewLoop r rs es ao = (ao₁, err) →
      ∀ q : Parameter, q ∉ es.map Prod.fst → assocFind q ao₁ = assocFind q ao := by
  intro es
  induction es with
  | nil =>
    intro ao ao₁ err h q _
    cases h
    rfl
  | cons hd tl ih =>
    intro ao ao₁ err h q hq
    obtain ⟨ap, od⟩ := hd
    have hq1 : q ∉ tl.map Prod.fst := by
      intro hc
      exact hq (by simp [List.mem_cons]; right; simpa using hc)
    have hq2 : q ≠ ap := by
      intro hc
      exact hq (by simp [hc])
    simp only [genNewLoop] at h
    cases hne : new_attr_entry r rs ap od with
    | error e =>
      rw [hne] at h
      cases h
      rfl
    | ok entry =>
      rw [hne] at h
      exact (ih _ _ _ h q hq1).trans (assocFind_set_ne hq2 _ ao)

theorem genNewLoop_post (r : XRes) (rs : String) :
    ∀ (es : List (Parameter × OutputDef)), (es.map Prod.fst).Nodup →
      ∀ ao ao₁, genNewLoop r rs es ao = (ao₁, none) →
      ∀ pr ∈ es, ∃ e, new_attr_entry r rs pr.1 pr.2 = .ok e
        ∧ assocFind pr.1 ao₁ = some e := by
  intro es
  induction es with
  | nil =>
    intro _ ao ao₁ _ pr hpr
    simp at hpr
  | cons hd tl ih =>
    intro hnd ao ao₁ h pr hpr
    obtain ⟨ap, od⟩ := hd
    have hnd0 : (ap :: tl.map Prod.fst).Nodup := by simpa using hnd
    have hnd' := List.nodup_cons.mp hnd0
    simp only [genNewLoop] at h
    cases hne : new_attr_entry r rs ap od with
    | error e =>
      rw [hne] at h
      cases h
    | ok entry =>
      rw [hne] at h
      rcases List.mem_cons.mp hpr with heq | hmem
      · subst heq
        refine ⟨entry, hne, ?_⟩
        exact (genNewLoop_stable r rs tl _ _ _ h ap hnd'.1).trans
          (assocFind_set_self ap entry ao)
      · exact ih hnd'.2 _ _ h pr hmem

theorem genNewLoop_idem (r : XRes) (rs : String) :
    ∀ (es : List (Parameter × OutputDef)) (ao : List (Parameter × AttrOut)),
      (∀ pr ∈ es, ∃ e, new_attr_entry r rs pr.1 pr.2 = .ok e
        ∧ assocFind pr.1 ao = some e) →
      genNewLoop r rs es ao = (ao, none) := by
  intro es
  induction es with
  | nil =>
    intro ao _
    rfl
  | cons hd tl ih =>
    intro ao h
    obtain ⟨ap, od⟩ := hd
    rcases h (ap, od) (List.mem_cons_self _ _) with ⟨e, hok, hf⟩
    simp only [genNewLoop]
    rw [show new_attr_entry r rs ap od = Except.ok e from hok]
    show genNewLoop r rs tl (assocSet ap e ao) = (ao, none)
    rw [show assocSet ap e ao = ao from assocSet_eq_of_find hf]
    exact ih ao fun pr hpr => h pr (List.mem_cons_of_mem _ hpr)

theorem genLookupLoop_congr (r r' : XRes)
    (h : ∀ p, lookup_attr_entry r' p = lookup_attr_entry r p) :
    ∀ (es : Props) ao, genLookupLoop r' es ao = genLookupLoop r es ao := by
  intro es
  induction es with
  | nil =>
    intro ao
    rfl
  | cons hd tl ih =>
    intro ao
    obtain ⟨k, v⟩ := hd
    cases k with
    | strKey s => rfl
    | param p =>
      show genLookupLoop r' tl (assocSet p (lookup_attr_entry r' p) ao) = _
      rw [h p]
      exact ih _

theorem genNewLoop_congr (r r' : XRes) (rs : String)
    (h : ∀ ap od, new_attr_entry r' rs ap od = new_attr_entry r rs ap od) :
    ∀ (es : List (Parameter × OutputDef)) ao,
      genNewLoop r' rs es ao = genNewLoop r rs es ao := by
  intro es
  induction es with
  | nil =>
    intro ao
    rfl
  | cons hd tl ih =>
    intro ao
    obtain ⟨ap, od⟩ := hd
    simp only [genNewLoop]
    rw [h ap od]
    cases new_attr_entry r rs ap od with
    | error e => rfl
    | ok entry => exact ih _

/-- Running `generate_outputs` on a state that differs from `r` only in
`attributes_outputs` and `outputs` takes the same branch as on `r` and
computes identical entries (the entry builders read only fields the update
does not touch). -/
theorem generate_outputs_on_update (r : XRes) (ao' : List (Parameter × AttrOut))
    (outs : List OutputRec) :
    generate_outputs { r with attributes_outputs := ao', outputs := outs } =
      match
        (if !r.lookup_properties.isEmpty then
          genLookupLoop r r.lookup_properties ao'
        else if !r.output_properties.isEmpty && r.lookup_properties.isEmpty then
          genNewLoop r (root_stack_of r) r.output_properties ao'
        else
          (ao', none)) with
      | (ao₂, some e) =>
        ({ r with attributes_outputs := ao₂, outputs := outs }, some e)
      | (ao₂, none) =>
        ({ r with attributes_outputs := ao₂, outputs := outs ++ outSeg ao₂ }, none) := by
  unfold generate_outputs
  rw [genLookupLoop_congr r { r with attributes_outputs := ao', outputs := outs }
        (fun p => rfl) r.lookup_properties ao',
      genNewLoop_congr r { r with attributes_outputs := ao', outputs := outs }
        (root_stack_of { r with attributes_outputs := ao', outputs := outs })
        (fun ap od => rfl) r.output_properties ao']
  rfl

/-! C1 — `generate_outputs` is not idempotent on the outputs list. -/

/-- C1, counterexample: on a new resource with one registered output spec,
a first `generate_outputs` leaves one entry in the outputs list, a second
call with the registry unchanged appends the same entry again — the output
lists are not byte-identical and a stale duplicate accumulates (the
binding registry `attributes_outputs` itself stays at one entry). -/
theorem C1_counterexample :
    ((generate_outputs rC1).1).outputs.length = 1
    ∧ ((generate_outputs ((generate_outputs rC1).1)).1).outputs.length = 2
    ∧ ((generate_outputs ((generate_outputs rC1).1)).1).outputs.map
        (fun o => o.title) = ["MyresArn", "MyresArn"]
    ∧ ((generate_outputs ((generate_outputs rC1).1)).1).attributes_outputs.length = 1 :=
  ⟨rfl, rfl, rfl, rfl⟩

/-- C1, amended: rebuilding twice with an unchanged registry leaves the
binding registry projection (`attributes_outputs`) unchanged, but the
outputs list is appended to on every call — the second call appends the
same segment the first call appended, instead of leaving the list
byte-identical. -/
theorem C1_generate_outputs_amended (r : XRes)
    (hop : (r.output_properties.map Prod.fst).Nodup)
    (hlp : (paramKeys r.lookup_properties).Nodup)
    (r₁ : XRes) (h₁ : generate_outputs r = (r₁, none)) :
    generate_outputs r₁ =
      ({ r₁ with outputs := r₁.outputs ++ r₁.outputs.drop r.outputs.length }, none) := by
  unfold generate_outputs at h₁
  cases hLe : r.lookup_properties.isEmpty with
  | false =>
    rw [hLe] at h₁
    simp only [Bool.not_false, if_true] at h₁
    rcases hloop : genLookupLoop r r.lookup_properties r.attributes_outputs with ⟨ao₁, err⟩
    rw [hloop] at h₁
    cases err with
    | some e => simp at h₁
    | none =>
      injection h₁ with hA hB
      subst hA
      have hpost := genLookupLoop_post r r.lookup_properties hlp _ _ hloop
      have hidem : genLookupLoop r r.lookup_properties ao₁ = (ao₁, none) :=
        genLookupLoop_idem r r.lookup_properties ao₁ hpost
      rw [generate_outputs_on_update r ao₁ (r.outputs ++ outSeg ao₁), hLe]
      simp only [Bool.not_false, if_true]
      rw [hidem]
      have hdrop : (r.outputs ++ outSeg ao₁).drop r.outputs.length = outSeg ao₁ :=
        List.drop_left _ _
      simp [hdrop]
  | true =>
    rw [hLe] at h₁
    simp only [Bool.not_true, Bool.false_eq_true, if_false, Bool.and_true] at h₁
    cases hOe : r.output_properties.isEmpty with
    | false =>
      rw [hOe] at h₁
      simp only [Bool.not_false, if_true] at h₁
      rcases hloop : genNewLoop r (root_stack_of r) r.output_properties
          r.attributes_outputs with ⟨ao₁, err⟩
      rw [hloop] at h₁
      cases err with
      | some e => simp at h₁
      | none =>
        injection h₁ with hA hB
        subst hA
        have hpost := genNewLoop_post r (root_stack_of r) r.output_properties hop _ _ hloop
        have hidem : genNewLoop r (root_stack_of r) r.output_properties ao₁ = (ao₁, none) :=
          genNewLoop_idem r (root_stack_of r) r.output_properties ao₁ hpost
        rw [generate_outputs_on_update r ao₁ (r.outputs ++ outSeg ao₁), hLe, hOe]
        simp only [Bool.not_true, Bool.not_false, Bool.false_eq_true, if_false,
          Bool.and_true, if_true]
        rw [hidem]
        have hdrop : (r.outputs ++ outSeg ao₁).drop r.outputs.length = outSeg ao₁ :=
          List.drop_left _ _
        simp [hdrop]
    | true =>
      rw [hOe] at h₁
      simp only [Bool.not_true, Bool.false_eq_true, if_false, Bool.false_and] at h₁
      injection h₁ with hA hB
      subst hA
      rw [generate_outputs_on_update r r.attributes_outputs
          (r.outputs ++ outSeg r.attributes_outputs), hLe, hOe]
      simp only [Bool.not_true, Bool.false_eq_true, if_false, Bool.false_and]
      have hdrop : (r.outputs ++ outSeg r.attributes_outputs).drop r.outputs.length
          = outSeg r.attributes_outputs := List.drop_left _ _
      simp [hdrop]

/-- C1, witness: the amended theorem applied to the one-output new
resource — the second rebuild doubles the outputs list and keeps the
registry. -/
theorem C1_generate_outputs_amended_witness :
    generate_outputs ((generate_outputs rC1).1) =
      ({ (generate_outputs rC1).1 with
         outputs := ((generate_outputs rC1).1).outputs
           ++ ((generate_outputs rC1).1).outputs.drop rC1.outputs.length }, none) :=
  C1_generate_outputs_amended rC1 (by decide) (by decide) _ rfl

theorem outSeg_single (k : Parameter) (a : AttrOut) :
    outSeg [(k, a)] = a.Output.toList := by
  cases h : a.Output <;> simp [outSeg, h]

/-- `generate_outputs` on a state given by explicit registry, binding and
outputs fields over a base resource `r` (the entry builders read only the
base fields). -/
theorem generate_outputs_explicit (r : XRes) (op : List (Parameter × OutputDef))
    (ao : List (Parameter × AttrOut)) (outs : List OutputRec) :
    generate_outputs
      { r with output_properties := op, attributes_outputs := ao, outputs := outs } =
      match
        (if !r.lookup_properties.isEmpty then
          genLookupLoop r r.lookup_properties ao
        else if !op.isEmpty && r.lookup_properties.isEmpty then
          genNewLoop r (root_stack_of r) op ao
        else
          (ao, none)) with
      | (ao₂, some e) =>
        ({ r with
           output_properties := op, attributes_outputs := ao₂,
           outputs := outs }, some e)
      | (ao₂, none) =>
        ({ r with
           output_properties := op, attributes_outputs := ao₂,
           outputs := outs ++ outSeg ao₂ }, none) := by
  unfold generate_outputs
  rw [genLookupLoop_congr r
        { r with output_properties := op, attributes_outputs := ao, outputs := outs }
        (fun p => rfl) r.lookup_properties ao,
      genNewLoop_congr r
        { r with output_properties := op, attributes_outputs := ao, outputs := outs }
        (root_stack_of
          { r with output_properties := op, attributes_outputs := ao, outputs := outs })
        (fun a o => rfl) op ao]
  rfl

/-! C7 — replacing an attribute binding. -/

/-- C7, counterexample: registering the same attribute id twice with two
different expression configurations leaves exactly one binding for it in
the registry, but the exported output list then carries **two** entries
derived from that attribute (the stale first one plus the latest) —
refuting "exactly one entry for A in the exported output list". -/
theorem C7_counterexample :
    ((add_new_output_attribute (add_new_output_attribute baseNew apA odA1).1 apA odA2).1).output_properties
      = [(apA, odA2)]
    ∧ ((add_new_output_attribute (add_new_output_attribute baseNew apA odA1).1 apA odA2).1).attributes_outputs.length
      = 1
    ∧ ((add_new_output_attribute (add_new_output_attribute baseNew apA odA1).1 apA odA2).1).outputs.length
      = 2
    ∧ ((add_new_output_attribute (add_new_output_attribute baseNew apA odA1).1 apA odA2).1).outputs.map
        (fun o => o.title) = ["MyresArn", "MyresArn"] :=
  ⟨rfl, rfl, rfl, rfl⟩

/-- C7, amended: on a fresh resource, registering attribute `ap` twice
with two different well-formed configurations leaves exactly one binding
for `ap` in the raw registry (the latest) and exactly one entry for `ap`
in `attributes_outputs` (rebuilt from the latest), but the exported
outputs list accumulates one entry per rebuild: it ends with both the
stale first output and the latest one. -/
theorem C7_replacement_amended (r : XRes) (ap : Parameter) (cfg1 cfg2 : OutputDef)
    (e1 e2 : AttrOut)
    (hop : r.output_properties = []) (hao : r.attributes_outputs = [])
    (hout : r.outputs = []) (hlp : r.lookup_properties = [])
    (h1 : new_attr_entry r (root_stack_of r) ap cfg1 = .ok e1)
    (h2 : new_attr_entry r (root_stack_of r) ap cfg2 = .ok e2) :
    add_new_output_attribute r ap cfg1 =
      ({ r with
         output_properties := [(ap, cfg1)], attributes_outputs := [(ap, e1)],
         outputs := e1.Output.toList }, none)
    ∧ add_new_output_attribute
        { r with
          output_properties := [(ap, cfg1)], attributes_outputs := [(ap, e1)],
          outputs := e1.Output.toList } ap cfg2 =
      ({ r with
         output_properties := [(ap, cfg2)], attributes_outputs := [(ap, e2)],
         outputs := e1.Output.toList ++ e2.Output.toList }, none) := by
  have hloop1 : genNewLoop r (root_stack_of r) [(ap, cfg1)] [] = ([(ap, e1)], none) := by
    simp only [genNewLoop]
    rw [h1]
    rfl
  have hloop2 : genNewLoop r (root_stack_of r) [(ap, cfg2)] [(ap, e1)] = ([(ap, e2)], none) := by
    simp only [genNewLoop]
    rw [h2]
    show genNewLoop r (root_stack_of r) [] (assocSet ap e2 [(ap, e1)]) = _
    rw [show assocSet ap e2 [(ap, e1)] = [(ap, e2)] from by simp [assocSet]]
    rfl
  constructor
  · have base1 : add_new_output_attribute r ap cfg1 =
        generate_outputs { r with
          output_properties := [(ap, cfg1)],
          attributes_outputs := r.attributes_outputs, outputs := r.outputs } := by
      unfold add_new_output_attribute
      rw [hop]
      rfl
    rw [base1, generate_outputs_explicit r [(ap, cfg1)] r.attributes_outputs r.outputs,
      hlp, hao, hout]
    simp only [List.isEmpty_nil, Bool.not_true, Bool.false_eq_true, if_false,
      Bool.and_true, List.isEmpty_cons, Bool.not_false, if_true]
    rw [hloop1]
    simp [outSeg_single]
  · have base2 : add_new_output_attribute
        { r with
          output_properties := [(ap, cfg1)], attributes_outputs := [(ap, e1)],
          outputs := e1.Output.toList } ap cfg2 =
        generate_outputs { r with
          output_properties := [(ap, cfg2)],
          attributes_outputs := [(ap, e1)], outputs := e1.Output.toList } := by
      unfold add_new_output_attribute
      have hset : assocSet ap cfg2 [(ap, cfg1)] = [(ap, cfg2)] := by
        simp [assocSet]
      simp [hset]
    rw [base2, generate_outputs_explicit r [(ap, cfg2)] [(ap, e1)] e1.Output.toList, hlp]
    simp only [List.isEmpty_nil, Bool.not_true, Bool.false_eq_true, if_false,
      Bool.and_true, List.isEmpty_cons, Bool.not_false, if_true]
    rw [hloop2]
    simp [outSeg_single]

/-- C7, witness: the amended theorem applied on a fresh new resource with
two `GetAtt` configurations for the same attribute id. -/
theorem C7_replacement_amended_witness :
    add_new_output_attribute (add_new_output_attribute baseNew apA odA1).1 apA odA2 =
      ({ baseNew with
         output_properties := [(apA, odA2)],
         attributes_outputs := [(apA, e2fix)],
         outputs := e1fix.Output.toList ++ e2fix.Output.toList }, none) := by
  have h := C7_replacement_amended baseNew apA odA1 odA2 e1fix e2fix rfl rfl rfl rfl rfl rfl
  rw [show (add_new_output_attribute baseNew apA odA1).1 =
      { baseNew with
        output_properties := [(apA, odA1)],
        attributes_outputs := [(apA, e1fix)],
        outputs := e1fix.Output.toList } from by rw [h.1]]
  exact h.2

end ECSX
